import Mathlib

/-!
Verification of the foreclosure query engine (src/main.py) against its
natural-language specification.  The Python source is shallowly embedded:
pure functions become Lean functions, the geocoding provider and the
geodesic distance computation become oracle parameters, spreadsheet cell
values become an explicit inductive type, Python floats are modelled as
rationals (no claim under scrutiny depends on binary rounding), and the
stateful lru_cache around the geocoder becomes explicit state passing
with a call counter.
-/

/-! ### Python string semantics helpers -/

/-- Python str.lower, restricted to ASCII case mapping.  Defined on the
character list so that it reduces inside the kernel. -/
def pyLower (s : String) : String := ⟨s.data.map Char.toLower⟩

/-- Python str.strip with the default whitespace argument: leading and
trailing whitespace characters removed. -/
def pyStrip (s : String) : String :=
  ⟨((s.data.dropWhile Char.isWhitespace).reverse.dropWhile Char.isWhitespace).reverse⟩

/-- Python substring containment (the in operator) on character lists:
true iff p occurs contiguously inside s.  Case sensitive, and the empty
pattern occurs in every string, exactly as in Python. -/
def isSubstr (p s : List Char) : Bool :=
  (List.range (s.length + 1)).any (fun i => p.isPrefixOf (s.drop i))

/-- Python substring containment on strings. -/
def isSubstrS (p s : String) : Bool := isSubstr p.toList s.toList

/-! ### Spreadsheet cell values

gspread get_all_records yields strings or numbers for cells; a missing
key lookup in Python yields None.  We model the values a row can hold
(and that row.get can return) as an inductive type with Python
truthiness and Python str coercion. -/

inductive Value where
  | vNone : Value
  | vStr : String → Value
  | vInt : Int → Value
deriving DecidableEq, Repr

/-- Python truthiness of a cell value: None and empty string and 0 are
falsy, everything else truthy. -/
def pyTruthy : Value → Bool
  | .vNone => false
  | .vStr s => s ≠ ""
  | .vInt n => n ≠ 0

/-- Python str() of a cell value; str(None) is the four letter string
None, which matters for claim C9. -/
def pyStr : Value → String
  | .vNone => "None"
  | .vStr s => s
  | .vInt n => toString n

/-- A sheet row: an ordered association of field names to values,
mirroring the dict produced by get_all_records. -/
abbrev Row := List (String × Value)

/-- Python row.get(k): the stored value, or None when the key is absent. -/
def rowGet (r : Row) (k : String) : Value := (r.lookup k).getD .vNone

/-- Python row.get(k, d): the stored value (even when it is None), or
the default d only when the key is absent. -/
def rowGetD (r : Row) (k : String) (d : Value) : Value := (r.lookup k).getD d

/-- The text searched by the full-query fallback of the endpoint:
join(str(v).lower() for v in row.values()) with a single space. -/
def joinedRowText (r : Row) : String :=
  String.intercalate " " (r.map fun kv => pyLower (pyStr kv.2))

/-- The text searched by the location-keyword filter of the endpoint:
the City and County fields, str-coerced, space separated, lowercased. -/
def cityCountyText (r : Row) : String :=
  pyLower (pyStr (rowGetD r "City" (.vStr "")) ++ " " ++ pyStr (rowGetD r "County" (.vStr "")))

/-! ### Dates

Calendar dates are modelled by their proleptic Gregorian ordinal
(Python date.toordinal: 0001-01-01 is day 1), an integer.  Python
date.weekday returns 0 for Monday; ordinal 1 is a Monday. -/

/-- Python date.weekday of the date with the given ordinal. -/
def weekday (t : ℤ) : ℤ := (t - 1) % 7

/-- parse_date_query from main.py: phrase containment on the lowercased
query, checked in source order (today, tomorrow, this week, next week),
anchored at the current date given as an ordinal. -/
def parse_date_query (today : ℤ) (query : String) : Option (ℤ × ℤ) :=
  let query_lower := pyLower query
  if isSubstrS "today" query_lower then some (today, today)
  else if isSubstrS "tomorrow" query_lower then some (today + 1, today + 1)
  else if isSubstrS "this week" query_lower then
    some (today - weekday today, today - weekday today + 6)
  else if isSubstrS "next week" query_lower then
    some (today + (7 - weekday today), today + (7 - weekday today) + 6)
  else none

/-! ### Time of day

Clock times are modelled as minutes after midnight; time(7,0) is 420. -/

/-- parse_time_of_day_query from main.py: morning 07:00-12:00,
afternoon 12:00-17:00, evening 17:00-21:00, by substring containment on
the lowercased query, in source order. -/
def parse_time_of_day_query (query : String) : Option (ℕ × ℕ) :=
  let query_lower := pyLower query
  if isSubstrS "morning" query_lower then some (420, 720)
  else if isSubstrS "afternoon" query_lower then some (720, 1020)
  else if isSubstrS "evening" query_lower then some (1020, 1260)
  else none

example : parse_time_of_day_query "Morning auctions" = some (420, 720) := by decide
example : parse_date_query 100 "next week" = some (106, 112) := by decide
example : parse_date_query 100 "this week or next week" = some (99, 105) := by decide

/-! ### strptime for the stored sale date (format MM/DD/YYYY)

CPython strptime compiles the percent-m / percent-d / percent-Y format
into the regex 1[0-2]|0[1-9]|[1-9] for the month, 3[01]|[12]d|0[1-9]|[1-9]
for the day (d standing for a digit), exactly four digits for the year,
with the two slashes literal, a full match of the whole string, and the
usual leftmost ordered-alternative backtracking.  The matched numbers
are then handed to the date constructor, which checks year at least 1
and the day against the length of the month and otherwise raises (the
caller in main.py catches that as an unparsable date). -/

/-- Numeric value of a two character digit pair. -/
def twoDigit (a b : Char) : ℕ := (a.toNat - 48) * 10 + (b.toNat - 48)

/-- Candidate parses, in regex preference order, for the pattern
1[0-2]|0[1-9]|[1-9] (used by strptime for months and for 12-hour
hours). -/
def digit12Cands (s : List Char) : List (ℕ × List Char) :=
  (match s with
   | '1' :: b :: r => if '0' ≤ b ∧ b ≤ '2' then [(10 + (b.toNat - 48), r)] else []
   | _ => []) ++
  (match s with
   | '0' :: b :: r => if '1' ≤ b ∧ b ≤ '9' then [(b.toNat - 48, r)] else []
   | _ => []) ++
  (match s with
   | a :: r => if '1' ≤ a ∧ a ≤ '9' then [(a.toNat - 48, r)] else []
   | _ => [])

/-- Candidate parses, in regex preference order, for the strptime day
pattern 3[01]|[12]d|0[1-9]|[1-9], d standing for a digit. -/
def dayCands (s : List Char) : List (ℕ × List Char) :=
  (match s with
   | '3' :: b :: r => if '0' ≤ b ∧ b ≤ '1' then [(30 + (b.toNat - 48), r)] else []
   | _ => []) ++
  (match s with
   | a :: b :: r => if ('1' ≤ a ∧ a ≤ '2') ∧ b.isDigit then [(twoDigit a b, r)] else []
   | _ => []) ++
  (match s with
   | '0' :: b :: r => if '1' ≤ b ∧ b ≤ '9' then [(b.toNat - 48, r)] else []
   | _ => []) ++
  (match s with
   | a :: r => if '1' ≤ a ∧ a ≤ '9' then [(a.toNat - 48, r)] else []
   | _ => [])

/-- The strptime year pattern for percent-Y: exactly four digits. -/
def year4 (s : List Char) : Option (ℕ × List Char) :=
  match s with
  | a :: b :: c :: d :: r =>
    if a.isDigit ∧ b.isDigit ∧ c.isDigit ∧ d.isDigit then
      some ((twoDigit a b) * 100 + twoDigit c d, r)
    else none
  | _ => none

/-- Try the day candidates after a parsed month: each must be followed
by a literal slash, a four digit year, and the end of the string.  The
first candidate for which the remaining pattern succeeds wins, as in
regex backtracking. -/
def tryDay (m : ℕ) : List (ℕ × List Char) → Option (ℕ × ℕ × ℕ)
  | [] => none
  | (d, r) :: rest =>
    match r with
    | '/' :: r2 =>
      (match year4 r2 with
       | some (y, []) => some (m, d, y)
       | _ => tryDay m rest)
    | _ => tryDay m rest

/-- Try the month candidates: each must be followed by a literal slash
and then a successful day parse. -/
def tryMonth : List (ℕ × List Char) → Option (ℕ × ℕ × ℕ)
  | [] => none
  | (m, r) :: rest =>
    match r with
    | '/' :: r2 =>
      (match tryDay m (dayCands r2) with
       | some v => some v
       | none => tryMonth rest)
    | _ => tryMonth rest

/-- The regex phase of strptime for MM/DD/YYYY: month, day and year as
matched numbers, or none when the string does not match the pattern. -/
def regexDate (s : String) : Option (ℕ × ℕ × ℕ) := tryMonth (digit12Cands s.data)

/-- Gregorian leap year rule, as used by the Python datetime module. -/
def isLeap (y : ℕ) : Bool := (y % 4 = 0 ∧ y % 100 ≠ 0) ∨ y % 400 = 0

/-- Length of a month in the given year. -/
def daysInMonth (y m : ℕ) : ℕ :=
  if m = 2 then (if isLeap y then 29 else 28)
  else if m = 4 ∨ m = 6 ∨ m = 9 ∨ m = 11 then 30 else 31

/-- Days in the given year that precede the first of the given month. -/
def daysBeforeMonth (y m : ℕ) : ℕ :=
  (([31, 28, 31, 30, 31, 30, 31, 31, 30, 31, 30, 31].take (m - 1)).sum)
    + (if 2 < m ∧ isLeap y then 1 else 0)

/-- Python date.toordinal: the proleptic Gregorian ordinal, with
0001-01-01 as day 1. -/
def toOrdinal (y m d : ℕ) : ℤ :=
  365 * ((y : ℤ) - 1) + ((y - 1) / 4 : ℕ) - ((y - 1) / 100 : ℕ) + ((y - 1) / 400 : ℕ)
    + daysBeforeMonth y m + d

/-- Full strptime for MM/DD/YYYY: the regex phase followed by the date
constructor validation (year at least 1 as in MINYEAR, day within the
month); an out-of-range date raises in Python, which the caller treats
as unparsable, hence none here. -/
def parseMMDDYYYY (s : String) : Option ℤ :=
  match regexDate s with
  | some (m, d, y) => if 1 ≤ y ∧ d ≤ daysInMonth y m then some (toOrdinal y m d) else none
  | none => none

/-- strptime applied to a cell value: Python raises a TypeError for a
non-string argument, which the caller catches, hence none here. -/
def strptimeDateVal : Value → Option ℤ
  | .vStr s => parseMMDDYYYY s
  | _ => none

example : parseMMDDYYYY "7/4/2024" = parseMMDDYYYY "07/04/2024" := by decide
example : (parseMMDDYYYY "02/29/2024").isSome = true := by decide
example : parseMMDDYYYY "02/29/2023" = none := by decide
example : parseMMDDYYYY "12/31/2024 " = none := by decide
example : parseMMDDYYYY "1/1/1" = none := by decide
example : parseMMDDYYYY "1/1/0001" = some 1 := by decide

/-! ### strptime for the stored sale time (format percent-I colon
percent-M space percent-p)

The hour pattern is 1[0-2]|0[1-9]|[1-9], the minute pattern is
[0-5]d|d (d standing for a digit), whitespace in the format matches one
or more whitespace characters, and AM or PM is matched case
insensitively.  Hour 12 AM maps to 0, PM adds 12 except at 12 PM. -/

/-- Candidate parses for the strptime minute pattern [0-5]d|d. -/
def minuteCands (s : List Char) : List (ℕ × List Char) :=
  (match s with
   | a :: b :: r => if ('0' ≤ a ∧ a ≤ '5') ∧ b.isDigit then [(twoDigit a b, r)] else []
   | _ => []) ++
  (match s with
   | a :: r => if a.isDigit then [(a.toNat - 48, r)] else []
   | _ => [])

/-- After minutes: one or more whitespace characters, a case
insensitive AM or PM, and the end of the string.  Returns true for PM. -/
def matchAmPm (s : List Char) : Option Bool :=
  let w := (s.takeWhile Char.isWhitespace).length
  if w = 0 then none
  else
    match s.drop w with
    | [a, m] =>
      if m.toLower = 'm' then
        if a.toLower = 'a' then some false
        else if a.toLower = 'p' then some true else none
      else none
    | _ => none

/-- Try the minute candidates with the trailing AM/PM pattern. -/
def tryMinute (h : ℕ) : List (ℕ × List Char) → Option (ℕ × ℕ × Bool)
  | [] => none
  | (mi, r) :: rest =>
    match matchAmPm r with
    | some pm => some (h, mi, pm)
    | none => tryMinute h rest

/-- Try the hour candidates: each must be followed by a literal colon
and then minutes plus AM/PM. -/
def tryHour : List (ℕ × List Char) → Option (ℕ × ℕ × Bool)
  | [] => none
  | (h, r) :: rest =>
    match r with
    | ':' :: r2 =>
      (match tryMinute h (minuteCands r2) with
       | some v => some v
       | none => tryHour rest)
    | _ => tryHour rest

/-- Full strptime for the 12-hour clock format, yielding minutes after
midnight. -/
def parseTime12 (s : String) : Option ℕ :=
  match tryHour (digit12Cands s.data) with
  | some (h, mi, pm) =>
    let h24 := if pm then (if h = 12 then 12 else h + 12) else (if h = 12 then 0 else h)
    some (h24 * 60 + mi)
  | none => none

/-- strptime for a time cell value; a non-string raises a TypeError in
Python, caught by the caller, hence none here. -/
def strptimeTimeVal : Value → Option ℕ
  | .vStr s => parseTime12 s
  | _ => none

example : parseTime12 "1:30 PM" = some 810 := by decide
example : parseTime12 "12:00 am" = some 0 := by decide
example : parseTime12 "12:00 pm" = some 720 := by decide
example : parseTime12 "10:15  Am" = some 615 := by decide
example : parseTime12 "13:30 PM" = none := by decide
example : parseTime12 "1:30PM" = none := by decide
example : parseTime12 "9:99 AM" = none := by decide

/-! ### The distance query pattern

main.py compiles, with the IGNORECASE flag, the pattern

  (at least|more than|over|greater than|at most|within|less than|under)?
  backslash-s* (digits with an optional fraction) backslash-s*
  (mile|min|minute|hr|hour) s? backslash-s* (from|of|around|near)?
  backslash-s* (.+)

and runs .search, i.e. the leftmost starting position admitting a match
wins, and at a given position ordered alternatives and greedy optionals
backtrack in the standard way.  The embedding below reproduces exactly
that strategy: positions are tried left to right; the comparison-phrase
and unit alternatives are tried in pattern order and fall through to
the next alternative (or to the absent case for the optional groups)
when the remainder of the pattern fails; the trailing group (.+) simply
needs a nonempty remainder.  Captured text keeps its original case,
which matters because the unit test in the code is a case sensitive
substring test on the captured unit. -/

/-- Case insensitive literal match: consumes the pattern (given in
lowercase) from the front of the input, returning the rest. -/
def ciStrip : List Char → List Char → Option (List Char)
  | [], s => some s
  | _ :: _, [] => none
  | p :: ps, c :: cs => if p = c.toLower then ciStrip ps cs else none

/-- Number of leading whitespace characters (what backslash-s* consumes
greedily). -/
def wsCount (s : List Char) : ℕ := (s.takeWhile Char.isWhitespace).length

/-- The numeric magnitude pattern: one or more digits with an optional
dot-and-digits fraction, greedy.  Returns the captured characters and
the rest. -/
def matchNum (s : List Char) : Option (List Char × List Char) :=
  let ds := s.takeWhile Char.isDigit
  if ds.isEmpty then none
  else
    let r := s.drop ds.length
    match r with
    | '.' :: r2 =>
      let fs := r2.takeWhile Char.isDigit
      if fs.isEmpty then some (ds, r)
      else some (ds ++ '.' :: fs, r2.drop fs.length)
    | _ => some (ds, r)

/-- The final group (.+) after a greedy backslash-s*: fails only on an
empty remainder; otherwise the whitespace run is consumed except that
one character is left over when the remainder is all whitespace. -/
def locTail (s : List Char) : Option (List Char) :=
  if s.isEmpty then none
  else some (s.drop (min (wsCount s) (s.length - 1)))

/-- The connector words tried in pattern order. -/
def connAlts : List String := ["from", "of", "around", "near"]

/-- The optional connector group: a matching connector is preferred,
falling back to the absent case when the remainder fails. -/
def connStage : List String → List Char → Option (List Char)
  | [], s => locTail s
  | a :: rest, s =>
    match ciStrip a.data s with
    | some r =>
      (match locTail r with
       | some loc => some loc
       | none => connStage rest s)
    | none => connStage rest s

/-- Greedy backslash-s* before the connector: drops of decreasing
length are tried, longest first. -/
def wsStage : ℕ → List Char → Option (List Char)
  | 0, s => connStage connAlts s
  | k + 1, s =>
    match connStage connAlts (s.drop (k + 1)) with
    | some loc => some loc
    | none => wsStage k s

/-- Everything after the unit alternatives: the optional plural s
(case insensitive, preferred present), whitespace, the optional
connector, whitespace, and the location group. -/
def unitTail (s : List Char) : Option (List Char) :=
  match s with
  | c :: r =>
    if c.toLower = 's' then
      (match wsStage (wsCount r) r with
       | some loc => some loc
       | none => wsStage (wsCount s) s)
    else wsStage (wsCount s) s
  | [] => wsStage 0 []

/-- The unit alternatives in pattern order. -/
def unitAlts : List String := ["mile", "min", "minute", "hr", "hour"]

/-- The unit group: alternatives in pattern order, falling through to
the next alternative when the remainder of the pattern fails.  Returns
the captured unit text (original case) and the captured location. -/
def unitStage : List String → List Char → Option (String × String)
  | [], _ => none
  | a :: rest, s =>
    match ciStrip a.data s with
    | some r =>
      (match unitTail r with
       | some loc => some (⟨s.take a.data.length⟩, ⟨loc⟩)
       | none => unitStage rest s)
    | none => unitStage rest s

/-- The regex groups of a successful distance match. -/
structure DistMatch where
  comp : Option String
  valStr : String
  unit : String
  loc : String
deriving DecidableEq, Repr

/-- The pattern after the optional comparison phrase: whitespace, the
number, whitespace, then the unit group and its tail. -/
def afterComp (s : List Char) : Option (String × String × String) :=
  let s1 := s.drop (wsCount s)
  match matchNum s1 with
  | none => none
  | some (num, r) =>
    match unitStage unitAlts (r.drop (wsCount r)) with
    | some (u, loc) => some (⟨num⟩, u, loc)
    | none => none

/-- The comparison phrase alternatives in pattern order. -/
def compAlts : List String :=
  ["at least", "more than", "over", "greater than", "at most", "within", "less than", "under"]

/-- The optional comparison group at one starting position: a matching
phrase is preferred (alternatives in pattern order, falling through on
a failing remainder), then the absent case. -/
def compStage : List String → List Char → Option DistMatch
  | [], s =>
    (afterComp s).map (fun g => ⟨none, g.1, g.2.1, g.2.2⟩)
  | a :: rest, s =>
    match ciStrip a.data s with
    | some r =>
      (match afterComp r with
       | some g => some ⟨some ⟨s.take a.data.length⟩, g.1, g.2.1, g.2.2⟩
       | none => compStage rest s)
    | none => compStage rest s

/-- re.search for the distance pattern: starting positions left to
right, first position admitting a match wins. -/
def distSearch : List Char → Option DistMatch
  | [] => compStage compAlts []
  | s@(_ :: t) =>
    match compStage compAlts s with
    | some m => some m
    | none => distSearch t

example : distSearch "within 10 miles of Nashville".data =
    some ⟨some "within", "10", "mile", "Nashville"⟩ := by decide
example : distSearch "2 hours from Nashville".data =
    some ⟨none, "2", "hour", "Nashville"⟩ := by decide
example : distSearch "10 minutes from downtown".data =
    some ⟨none, "10", "min", "utes from downtown"⟩ := by decide
example : distSearch "deals in Nashville".data = none := by decide
example : distSearch "at least 5.5 miles of town".data =
    some ⟨some "at least", "5.5", "mile", "town"⟩ := by decide
example : distSearch "10 miles".data = some ⟨none, "10", "mile", "s"⟩ := by decide
example : distSearch "show me 10 MILES NEAR Memphis".data =
    some ⟨none, "10", "MILE", "Memphis"⟩ := by decide

/-! ### The geocode resolver

geopy is out of scope: the external lookup is an oracle from strings to
optional coordinates (a timeout or an unavailable service gives none,
exactly like a failed lookup, because get_coords catches those
exceptions and returns None).  Coordinates are rational pairs.  The
lru_cache decorator on get_coords is modelled as explicit state with a
counter of external calls; the cache key is the raw argument string, as
for the Python decorator, while the normalization (strip then lower)
happens inside the function, just before the external call.  The
maxsize=128 eviction of lru_cache is not modelled; no claim under
scrutiny involves more than a handful of distinct keys. -/

abbrev Coords := ℚ × ℚ

/-- The geocode cache together with the number of external provider
calls performed so far. -/
structure GeoState where
  cache : List (String × Option Coords)
  calls : ℕ
deriving DecidableEq, Repr

/-- get_coords from main.py under the lru_cache decorator: the cache is
consulted with the raw argument; on a miss the provider is called on
the stripped and lowercased argument and the result (even a failure) is
cached under the raw argument. -/
def get_coords (provider : String → Option Coords) (st : GeoState) (loc : String) :
    Option Coords × GeoState :=
  match st.cache.lookup loc with
  | some r => (r, st)
  | none =>
    let r := provider (pyLower (pyStrip loc))
    (r, ⟨(loc, r) :: st.cache, st.calls + 1⟩)

/-- The value returned by get_coords, independent of the cache state:
on any state whose entries agree with the provider this is what the
stateful version returns (see get_coords_value below).  The parsing and
filtering definitions use this value semantics; only claim C7 is about
the cache itself. -/
def get_coords_pure (provider : String → Option Coords) (loc : String) : Option Coords :=
  provider (pyLower (pyStrip loc))

/-- A cache state is wellformed for a provider when every entry stores
exactly what the provider returns for the normalized key, which is what
get_coords itself establishes. -/
def GeoWF (provider : String → Option Coords) (st : GeoState) : Prop :=
  ∀ p ∈ st.cache, p.2 = get_coords_pure provider p.1

/-- A successful association list lookup locates a stored pair. -/
theorem lookupPairMem {α β : Type} [BEq α] [LawfulBEq α] {l : List (α × β)} {k : α} {v : β}
    (h : l.lookup k = some v) : (k, v) ∈ l := by
  induction l with
  | nil => simp [List.lookup] at h
  | cons p t ih =>
    rcases p with ⟨a, b⟩
    cases hk : k == a with
    | true =>
      simp only [List.lookup, hk] at h
      have ha : k = a := by simpa using hk
      cases h
      simp [ha]
    | false =>
      simp only [List.lookup, hk] at h
      exact List.mem_cons_of_mem _ (ih h)

/-- On a wellformed state the stateful geocoder returns the pure value
and preserves wellformedness, so value-level uses of the cache may be
replaced by the pure function. -/
theorem get_coords_value (provider : String → Option Coords) (st : GeoState) (loc : String)
    (h : GeoWF provider st) :
    (get_coords provider st loc).1 = get_coords_pure provider loc ∧
      GeoWF provider (get_coords provider st loc).2 := by
  unfold get_coords
  cases hl : st.cache.lookup loc with
  | none =>
    refine ⟨rfl, ?_⟩
    intro p hp
    rcases List.mem_cons.mp hp with h1 | h2
    · subst h1; rfl
    · exact h p h2
  | some r =>
    refine ⟨?_, h⟩
    have := h (loc, r) (lookupPairMem hl)
    simpa using this

/-! parse_distance_query from main.py: run the pattern search, convert
the magnitude (a case sensitive substring test decides the unit: min
means times 0.8, else hr means times 45, else the value is taken as
miles), choose which bound the comparison phrase sets, geocode the
captured location, and return None when the location does not resolve.
Python float arithmetic is modelled as exact rational arithmetic. -/

/-- The extracted distance constraint: field order follows the tuple
(max_dist, min_dist, target_coords) returned by the code. -/
structure DistParams where
  max_dist : Option ℚ
  min_dist : Option ℚ
  target : Coords
deriving DecidableEq, Repr

/-- float() applied to the captured magnitude (digits with an optional
fraction). -/
def pyFloat (s : String) : ℚ :=
  let ds := s.data.takeWhile Char.isDigit
  let intPart : ℚ := (ds.foldl (fun a c => 10 * a + (c.toNat - 48)) 0 : ℕ)
  match s.data.drop ds.length with
  | '.' :: fs => intPart + ((fs.foldl (fun a c => 10 * a + (c.toNat - 48)) 0 : ℕ) : ℚ) / (10 ^ fs.length)
  | _ => intPart

/-- The unit conversion applied by the code to the magnitude: a case
sensitive substring test on the captured unit text. -/
def convertDist (m : DistMatch) : ℚ :=
  let dist := pyFloat m.valStr
  if isSubstrS "min" m.unit then dist * (8 / 10)
  else if isSubstrS "hr" m.unit then dist * 45
  else dist

/-- The test comp and comp.lower() in the lower-bound phrase list. -/
def isLowerComp : Option String → Bool
  | some c => ["at least", "more than", "over", "greater than"].contains (pyLower c)
  | none => false

def parse_distance_query (provider : String → Option Coords) (query : String) :
    Option DistParams :=
  match distSearch query.data with
  | none => none
  | some m =>
    let dist := convertDist m
    let bounds : Option ℚ × Option ℚ :=
      if isLowerComp m.comp then (some dist, none) else (none, some dist)
    match get_coords_pure provider m.loc with
    | some tc => some ⟨bounds.2, bounds.1, tc⟩
    | none => none

example :
    parse_distance_query (fun s => if s = "nashville" then some (36, -86) else none)
      "within 10 miles of Nashville" = some ⟨some 10, none, (36, -86)⟩ := by decide

/-! ### The record filter engine (the endpoint body)

Step 1 of the endpoint (lines 116-123 of main.py): the three structured
parsers run on the query; the location keywords are extracted from the
known locations only when the distance parser produced nothing. -/

/-- The per-request bundle of parsed dimensions. -/
structure ParsedDims where
  distance_params : Option DistParams
  date_range : Option (ℤ × ℤ)
  time_range : Option (ℕ × ℕ)
  location_keywords : List String
deriving DecidableEq, Repr

def parseDimensions (known_locations : List String) (today : ℤ)
    (provider : String → Option Coords) (query : String) : ParsedDims :=
  let query_lower := pyLower query
  let distance_params := parse_distance_query provider query
  { distance_params := distance_params
  , date_range := parse_date_query today query
  , time_range := parse_time_of_day_query query
  , location_keywords :=
      if distance_params.isSome then []
      else known_locations.filter (fun loc => isSubstrS loc query_lower) }

/-! Step 2 (lines 127-172): the per-row loop.  Each block below is one
of the five if-blocks of the loop body, in source order; a failing
block sets is_match to False and the row is skipped at the following
continue, which the step functions model by returning early.  Besides
the match verdict, the evaluation returns whether the distance block
ran (the only block that performs a geocode resolution on the row) and
the list of filter dimensions whose predicates were evaluated, in
evaluation order. -/

/-- The date block: a falsy stored value or an unparsable date fails
the predicate (the except arm of the try), otherwise the parsed date
must lie in the inclusive range. -/
def datePass (dr : ℤ × ℤ) (row : Row) : Bool :=
  let sale_date_str := rowGet row "SaleDate"
  if pyTruthy sale_date_str then
    match strptimeDateVal sale_date_str with
    | some d => decide (dr.1 ≤ d ∧ d ≤ dr.2)
    | none => false
  else false

/-- The time block, with the same fail-to-exclude policy. -/
def timePass (tr : ℕ × ℕ) (row : Row) : Bool :=
  let sale_time_str := rowGet row "SaleTime"
  if pyTruthy sale_time_str then
    match strptimeTimeVal sale_time_str with
    | some t => decide (tr.1 ≤ t ∧ t ≤ tr.2)
    | none => false
  else false

/-- The distance block: the composite address is geocoded (through the
cache); a row that does not resolve fails; otherwise the geodesic
distance is compared against whichever bounds are set. -/
def distPass (dp : DistParams) (provider : String → Option Coords)
    (gdist : Coords → Coords → ℚ) (row : Row) : Bool :=
  let address := pyStr (rowGetD row "PropertyAddress" (.vStr "")) ++ ", "
      ++ pyStr (rowGetD row "City" (.vStr "")) ++ ", TN"
  match get_coords_pure provider address with
  | none => false
  | some prop_coords =>
    let dist := gdist dp.target prop_coords
    (match dp.max_dist with | some mx => decide (¬ dist > mx) | none => true) &&
    (match dp.min_dist with | some mn => decide (¬ dist < mn) | none => true)

/-- Truthiness of the argument of any() on line 167: at least one of
the four parsed dimensions is active. -/
def anyActive (pd : ParsedDims) : Bool :=
  pd.distance_params.isSome || pd.date_range.isSome || pd.time_range.isSome
    || !pd.location_keywords.isEmpty

/-- A filter dimension, for recording which predicates were evaluated
on a row. -/
inductive Dim where
  | date | timeOfDay | keyword | distance
deriving DecidableEq, Repr

/-- The whole-query fallback block (lines 167-170), reached only by
rows that passed every earlier block: with no active dimension the
lowercased query must occur in the joined lowercased row values. -/
def rowEvalFallbackStep (pd : ParsedDims) (query_lower : String) (row : Row)
    (geo : Bool) (tr : List Dim) : Bool × Bool × List Dim :=
  if anyActive pd then (true, geo, tr)
  else (isSubstrS query_lower (joinedRowText row), geo, tr)

/-- The location-keyword block (lines 161-165): active when the keyword
list is nonempty, and the row passes when any keyword occurs in the
lowercased City-County text. -/
def rowEvalKwStep (pd : ParsedDims) (query_lower : String) (row : Row)
    (geo : Bool) (tr : List Dim) : Bool × Bool × List Dim :=
  match pd.location_keywords with
  | [] => rowEvalFallbackStep pd query_lower row geo tr
  | _ :: _ =>
    if pd.location_keywords.any (fun loc => isSubstrS loc (cityCountyText row)) then
      rowEvalFallbackStep pd query_lower row geo (tr ++ [Dim.keyword])
    else (false, geo, tr ++ [Dim.keyword])

/-- The distance block in the loop (lines 150-159); entering it is the
only way a row triggers a geocode resolution. -/
def rowEvalDistStep (pd : ParsedDims) (provider : String → Option Coords)
    (gdist : Coords → Coords → ℚ) (query_lower : String) (row : Row)
    (tr : List Dim) : Bool × Bool × List Dim :=
  match pd.distance_params with
  | some dp =>
    if distPass dp provider gdist row then
      rowEvalKwStep pd query_lower row true (tr ++ [Dim.distance])
    else (false, true, tr ++ [Dim.distance])
  | none => rowEvalKwStep pd query_lower row false tr

/-- The time block in the loop (lines 140-148). -/
def rowEvalTimeStep (pd : ParsedDims) (provider : String → Option Coords)
    (gdist : Coords → Coords → ℚ) (query_lower : String) (row : Row)
    (tr : List Dim) : Bool × Bool × List Dim :=
  match pd.time_range with
  | some t =>
    if timePass t row then rowEvalDistStep pd provider gdist query_lower row (tr ++ [Dim.timeOfDay])
    else (false, false, tr ++ [Dim.timeOfDay])
  | none => rowEvalDistStep pd provider gdist query_lower row tr

/-- The full loop body for one row, starting with the date block
(lines 130-138): the match verdict, whether the distance block ran, and
the evaluated dimensions in order. -/
def rowEval (pd : ParsedDims) (provider : String → Option Coords)
    (gdist : Coords → Coords → ℚ) (query_lower : String) (row : Row) :
    Bool × Bool × List Dim :=
  match pd.date_range with
  | some dr =>
    if datePass dr row then rowEvalTimeStep pd provider gdist query_lower row [Dim.date]
    else (false, false, [Dim.date])
  | none => rowEvalTimeStep pd provider gdist query_lower row []

/-! Step 3 (lines 175-192): the result formatter. -/

/-- The Property response model: all fields are strings. -/
structure Property where
  PropertyAddress : String
  SaleDate : String
  SaleTime : String
  City : String
  County : String
  ZipCode : String
  Source : String
deriving DecidableEq, Repr

/-- The formatter: every expected field is str()-coerced, with the
empty string default used only when the key is absent.  Because every
field is a string after coercion, the pydantic validation never fails
and no row is skipped, so the formatter is a total function. -/
def formatRow (r : Row) : Property :=
  { PropertyAddress := pyStr (rowGetD r "PropertyAddress" (.vStr ""))
  , SaleDate := pyStr (rowGetD r "SaleDate" (.vStr ""))
  , SaleTime := pyStr (rowGetD r "SaleTime" (.vStr ""))
  , City := pyStr (rowGetD r "City" (.vStr ""))
  , County := pyStr (rowGetD r "County" (.vStr ""))
  , ZipCode := pyStr (rowGetD r "ZipCode" (.vStr ""))
  , Source := pyStr (rowGetD r "Source" (.vStr "")) }

/-- The endpoint query_foreclosure_sheet: data and known locations come
from the (out of scope) sheet provider, today anchors the date parser,
provider and gdist are the geocoding and geodesic oracles.  An empty
record set returns immediately; otherwise the query is stripped, the
dimensions are parsed once, every row is evaluated, and survivors are
formatted. -/
def query_foreclosure_sheet (data : List Row) (known_locations : List String)
    (today : ℤ) (provider : String → Option Coords) (gdist : Coords → Coords → ℚ)
    (rawQuery : String) : List Property :=
  if data.isEmpty then []
  else
    let query := pyStrip rawQuery
    let query_lower := pyLower query
    let pd := parseDimensions known_locations today provider query
    (data.filter (fun row => (rowEval pd provider gdist query_lower row).1)).map formatRow

example :
    query_foreclosure_sheet
      [[("PropertyAddress", .vStr "1 Main St"), ("SaleDate", .vStr "7/4/2024"),
        ("City", .vStr "Nashville")]]
      ["nashville"] 100 (fun _ => none) (fun _ _ => 0) "1 main" =
    [⟨"1 Main St", "7/4/2024", "", "Nashville", "", "", ""⟩] := by decide

/-! ### Gate view of the loop body

Each if-block of the loop, viewed as an independent predicate: inactive
dimensions pass trivially.  rowEval_match_eq below proves that the
sequential short-circuiting loop computes exactly the conjunction of
these gates (with the fallback applied only when nothing is active),
which the per-claim theorems build on. -/

def dateGate (pd : ParsedDims) (row : Row) : Bool :=
  match pd.date_range with
  | some dr => datePass dr row
  | none => true

def timeGate (pd : ParsedDims) (row : Row) : Bool :=
  match pd.time_range with
  | some tr => timePass tr row
  | none => true

def distGate (pd : ParsedDims) (provider : String → Option Coords)
    (gdist : Coords → Coords → ℚ) (row : Row) : Bool :=
  match pd.distance_params with
  | some dp => distPass dp provider gdist row
  | none => true

def kwGate (pd : ParsedDims) (row : Row) : Bool :=
  match pd.location_keywords with
  | [] => true
  | _ :: _ => pd.location_keywords.any (fun loc => isSubstrS loc (cityCountyText row))

def fallbackCheck (pd : ParsedDims) (query_lower : String) (row : Row) : Bool :=
  if anyActive pd then true else isSubstrS query_lower (joinedRowText row)

/-- The sequential loop body computes the conjunction of the four gates
and the fallback check. -/
theorem rowEval_match_eq (pd : ParsedDims) (provider : String → Option Coords)
    (gdist : Coords → Coords → ℚ) (query_lower : String) (row : Row) :
    (rowEval pd provider gdist query_lower row).1 =
      (dateGate pd row && timeGate pd row && distGate pd provider gdist row
        && kwGate pd row && fallbackCheck pd query_lower row) := by
  unfold rowEval rowEvalTimeStep rowEvalDistStep rowEvalKwStep rowEvalFallbackStep
    dateGate timeGate distGate kwGate fallbackCheck
  rcases hd : pd.date_range with _ | dr <;>
    rcases ht : pd.time_range with _ | tr <;>
      rcases hp : pd.distance_params with _ | dp <;>
        rcases hk : pd.location_keywords with _ | ⟨k, ks⟩ <;>
          simp only [hd, ht, hp, hk] <;> split_ifs <;> simp_all

/-- Trace and geocode behaviour of the loop body, for any dimension
bundle satisfying the invariant (established by parseDimensions) that
an active distance constraint forces an empty keyword list: the
evaluated dimensions always form a subsequence of the cost order
date, time of day, keyword, distance, and the distance block (the only
geocode trigger) runs only when every cheaper active gate passed. -/
theorem rowEval_trace (pd : ParsedDims) (provider : String → Option Coords)
    (gdist : Coords → Coords → ℚ) (query_lower : String) (row : Row)
    (hker : pd.distance_params.isSome = true → pd.location_keywords = []) :
    (rowEval pd provider gdist query_lower row).2.2.Sublist
        [Dim.date, Dim.timeOfDay, Dim.keyword, Dim.distance] ∧
      ((rowEval pd provider gdist query_lower row).2.1 = true →
        dateGate pd row = true ∧ timeGate pd row = true ∧ kwGate pd row = true) := by
  unfold rowEval rowEvalTimeStep rowEvalDistStep rowEvalKwStep rowEvalFallbackStep
    dateGate timeGate kwGate
  rcases hd : pd.date_range with _ | dr <;>
    rcases ht : pd.time_range with _ | tr <;>
      rcases hp : pd.distance_params with _ | dp <;>
        rcases hk : pd.location_keywords with _ | ⟨k, ks⟩ <;>
          simp only [hd, ht, hp, hk] <;> split_ifs <;> simp_all

/-! ### Claim theorems -/

/-- Claim C1: for every query and every record, the engine evaluates
the active predicates in the increasing-cost order date range, time of
day, keyword, distance, short-circuiting on the first failure, so a
record that fails a cheaper predicate never triggers a geocode
resolution.  Formalized on the dimensions the endpoint parses: the
evaluated-dimension trace of the loop body is always a subsequence of
that cost order (the code places the distance block before the keyword
block, but the two are never simultaneously active because keyword
extraction is skipped when a distance constraint parsed), and whenever
any cheaper active gate fails the distance block, the only geocode
trigger, does not run. -/
theorem C1_cost_order_no_geocode_after_cheap_failure (kl : List String) (today : ℤ)
    (provider : String → Option Coords) (gdist : Coords → Coords → ℚ)
    (q : String) (row : Row) :
    (rowEval (parseDimensions kl today provider q) provider gdist (pyLower q) row).2.2.Sublist
        [Dim.date, Dim.timeOfDay, Dim.keyword, Dim.distance] ∧
      ((dateGate (parseDimensions kl today provider q) row = false ∨
        timeGate (parseDimensions kl today provider q) row = false ∨
        kwGate (parseDimensions kl today provider q) row = false) →
        (rowEval (parseDimensions kl today provider q) provider gdist (pyLower q) row).2.1 = false) := by
  have hker : (parseDimensions kl today provider q).distance_params.isSome = true →
      (parseDimensions kl today provider q).location_keywords = [] := by
    intro h
    simp only [parseDimensions] at h ⊢
    simp [h]
  have := rowEval_trace (parseDimensions kl today provider q) provider gdist (pyLower q) row hker
  refine ⟨this.1, ?_⟩
  intro hfail
  by_contra hgeo
  have hgeo' : (rowEval (parseDimensions kl today provider q) provider gdist (pyLower q) row).2.1 = true := by
    revert hgeo
    cases (rowEval (parseDimensions kl today provider q) provider gdist (pyLower q) row).2.1 <;> simp
  have hg := this.2 hgeo'
  rcases hfail with h | h | h <;> simp_all

/-- Witness for C1 at a concrete input: a query that activates both the
date and the distance dimensions, and a record with no sale date, so
the cheap date predicate fails; the theorem then yields that the
distance block never ran on the record. -/
theorem C1_cost_order_no_geocode_after_cheap_failure_witness :
    (rowEval (parseDimensions [] 100 (fun _ => some (36, -86)) "within 5 miles of x today")
        (fun _ => some (36, -86)) (fun _ _ => 0)
        (pyLower "within 5 miles of x today") [("City", Value.vStr "Nashville")]).2.1 = false :=
  (C1_cost_order_no_geocode_after_cheap_failure [] 100 (fun _ => some (36, -86)) (fun _ _ => 0)
      "within 5 miles of x today" [("City", Value.vStr "Nashville")]).2
    (Or.inl (by decide))

/-- Claim C2 counterexample: the claim says every dimension parser runs
unconditionally and independently, but keyword extraction is skipped
whenever the distance parser produced a constraint.  For the query
below the unconditional extraction over the known locations would yield
the keyword nashville, yet the parsed dimensions carry an empty keyword
list precisely because the distance dimension is active. -/
theorem C2_keyword_extraction_depends_on_distance :
    (parseDimensions ["nashville"] 100
        (fun s => if s = "nashville" then some (36, -86) else none)
        "within 10 miles of nashville").distance_params.isSome = true ∧
    (parseDimensions ["nashville"] 100
        (fun s => if s = "nashville" then some (36, -86) else none)
        "within 10 miles of nashville").location_keywords = [] ∧
    List.filter (fun loc => isSubstrS loc (pyLower "within 10 miles of nashville"))
        ["nashville"] = ["nashville"] := by
  decide

/-- Claim C2 amended: the three structured parsers (date range, time of
day, distance) run unconditionally and independently on the query text,
but keyword extraction runs only when the distance parser produced no
constraint; when a distance constraint is active the keyword list is
forced empty. -/
theorem C2_parsers_unconditional_except_keywords (kl : List String) (today : ℤ)
    (provider : String → Option Coords) (q : String) :
    (parseDimensions kl today provider q).date_range = parse_date_query today q ∧
    (parseDimensions kl today provider q).time_range = parse_time_of_day_query q ∧
    (parseDimensions kl today provider q).distance_params = parse_distance_query provider q ∧
    (parseDimensions kl today provider q).location_keywords =
      (if (parse_distance_query provider q).isSome then []
       else kl.filter (fun loc => isSubstrS loc (pyLower q))) :=
  ⟨rfl, rfl, rfl, rfl⟩

unseal Rat.mul Rat.add Rat.sub Rat.inv in
/-- Claim C3 at its failing input: the spelled-out unit hour (and hours,
captured as hour) receives no conversion at all, because the code tests
for the substring hr case-sensitively and hr does not occur in hour, so
a two hour query yields a bound of 2 miles instead of the claimed 90;
the abbreviated lowercase unit hr does get the conversion, which shows
the conversion itself (times 45) is what the code intends. -/
theorem C3_hours_unit_gets_no_conversion :
    parse_distance_query (fun s => if s = "nashville" then some (36, -86) else none)
        "2 hours from nashville" = some ⟨some 2, none, (36, -86)⟩ ∧
    parse_distance_query (fun s => if s = "nashville" then some (36, -86) else none)
        "2 hr from nashville" = some ⟨some 90, none, (36, -86)⟩ ∧
    isSubstrS "hr" "hour" = false ∧
    (2 : ℚ) ≠ 2 * 45 := by
  decide

/-- Claim C4 counterexample: the phrase checks run in the order today,
tomorrow, this week, next week, so a query containing both this week
and next week is resolved as this week.  With today = ordinal 100 (a
Tuesday), the current week is 99..105 and the Monday strictly after the
current week is 106, but the parser returns the range starting at 99. -/
theorem C4_this_week_shadows_next_week :
    parse_date_query 100 "this week or next week" = some (99, 105) ∧
    isSubstrS "next week" (pyLower "this week or next week") = true ∧
    (99 : ℤ) ≠ 100 - weekday 100 + 7 := by
  decide

/-- Claim C4 amended: for every query containing next week whose
lowercased text contains none of the earlier-checked phrases today,
tomorrow and this week, the parsed range starts at the day after the
current week's Sunday, which is the Monday strictly after the current
week, and spans exactly 7 days inclusively. -/
theorem C4_next_week_monday_after_current_week (today : ℤ) (q : String)
    (h1 : isSubstrS "next week" (pyLower q) = true)
    (h2 : isSubstrS "today" (pyLower q) = false)
    (h3 : isSubstrS "tomorrow" (pyLower q) = false)
    (h4 : isSubstrS "this week" (pyLower q) = false) :
    parse_date_query today q =
        some (today - weekday today + 7, today - weekday today + 7 + 6) ∧
    weekday (today - weekday today + 7) = 0 ∧
    today - weekday today + 7 = (today - weekday today + 6) + 1 ∧
    (today - weekday today + 7 + 6) - (today - weekday today + 7) + 1 = 7 := by
  refine ⟨?_, ?_, by ring, by ring⟩
  · unfold parse_date_query
    simp only [h1, h2, h3, h4]
    have e : today + (7 - weekday today) = today - weekday today + 7 := by ring
    rw [e]
    simp
  · unfold weekday
    omega

/-- Witness for C4 at a concrete input. -/
theorem C4_next_week_monday_after_current_week_witness :
    parse_date_query 100 "next week" = some (100 - weekday 100 + 7, 100 - weekday 100 + 7 + 6) :=
  (C4_next_week_monday_after_current_week 100 "next week"
    (by decide) (by decide) (by decide) (by decide)).1

/-- The parsed dimension bundle, written out field by field. -/
theorem parseDimensions_eq (kl : List String) (today : ℤ)
    (provider : String → Option Coords) (q : String) :
    parseDimensions kl today provider q =
      ⟨parse_distance_query provider q, parse_date_query today q, parse_time_of_day_query q,
       if (parse_distance_query provider q).isSome then []
       else kl.filter (fun loc => isSubstrS loc (pyLower q))⟩ := rfl

/-- Claim C5 counterexample, both directions of the mismatch, run
through the whole endpoint.  First: with the extracted keywords
nashville and memphis, a record matches although memphis occurs nowhere
in its field values, because the code requires only one keyword (any,
not each) to occur.  Second: a record whose address field contains the
single keyword riverside is excluded, because the code searches only
the City and County fields, not the concatenation of all field
values. -/
theorem C5_any_keyword_over_city_county_only :
    (query_foreclosure_sheet
        [[("PropertyAddress", Value.vStr "1 Main St"), ("City", Value.vStr "Nashville"),
          ("County", Value.vStr "Davidson")]]
        ["nashville", "memphis"] 100 (fun _ => none) (fun _ _ => 0) "nashville memphis" =
      [formatRow [("PropertyAddress", Value.vStr "1 Main St"), ("City", Value.vStr "Nashville"),
          ("County", Value.vStr "Davidson")]] ∧
     isSubstrS "memphis" (joinedRowText
        [("PropertyAddress", Value.vStr "1 Main St"), ("City", Value.vStr "Nashville"),
          ("County", Value.vStr "Davidson")]) = false) ∧
    (query_foreclosure_sheet
        [[("PropertyAddress", Value.vStr "12 Riverside Dr"), ("City", Value.vStr "X"),
          ("County", Value.vStr "Y")]]
        ["riverside"] 100 (fun _ => none) (fun _ _ => 0) "riverside" = [] ∧
     isSubstrS "riverside" (joinedRowText
        [("PropertyAddress", Value.vStr "12 Riverside Dr"), ("City", Value.vStr "X"),
          ("County", Value.vStr "Y")]) = true) := by
  decide

/-- Claim C5 amended: when the keyword dimension is active (the
extracted keyword list is nonempty, which the engine allows only when
no distance constraint parsed), a record passes the keyword block iff
at least one extracted keyword occurs, case-insensitively, within the
space-joined City and County fields of the record; the other active
predicates still apply conjunctively and the whole-query fallback is
skipped. -/
theorem C5_keyword_match_characterization (kl : List String) (today : ℤ)
    (provider : String → Option Coords) (gdist : Coords → Coords → ℚ)
    (q : String) (row : Row)
    (h : (parseDimensions kl today provider q).location_keywords ≠ []) :
    (rowEval (parseDimensions kl today provider q) provider gdist (pyLower q) row).1 =
      (dateGate (parseDimensions kl today provider q) row &&
       timeGate (parseDimensions kl today provider q) row &&
       (parseDimensions kl today provider q).location_keywords.any
         (fun loc => isSubstrS loc (cityCountyText row))) := by
  rcases hq : parse_distance_query provider q with _ | dp
  · rw [rowEval_match_eq]
    have hdg : distGate (parseDimensions kl today provider q) provider gdist row = true := by
      unfold distGate
      rw [parseDimensions_eq, hq]
    have hkg : kwGate (parseDimensions kl today provider q) row =
        (parseDimensions kl today provider q).location_keywords.any
          (fun loc => isSubstrS loc (cityCountyText row)) := by
      unfold kwGate
      rcases hk : (parseDimensions kl today provider q).location_keywords with _ | ⟨k, ks⟩
      · exact absurd hk h
      · rfl
    have hact : anyActive (parseDimensions kl today provider q) = true := by
      unfold anyActive
      rcases hk : (parseDimensions kl today provider q).location_keywords with _ | ⟨k, ks⟩
      · exact absurd hk h
      · simp [hk]
    have hfb : fallbackCheck (parseDimensions kl today provider q) (pyLower q) row = true := by
      unfold fallbackCheck
      rw [hact]
      simp
    rw [hdg, hkg, hfb]
    simp [Bool.and_true]
  · exfalso
    apply h
    rw [parseDimensions_eq, hq]
    rfl

/-- Witness for C5 amended at a concrete input: one keyword, active
date dimension alongside, record matching the keyword but failing the
date, so the whole conjunction is false. -/
theorem C5_keyword_match_characterization_witness :
    (rowEval (parseDimensions ["nashville"] 100 (fun _ => none) "nashville today")
        (fun _ => none) (fun _ _ => 0) (pyLower "nashville today")
        [("City", Value.vStr "Nashville")]).1 =
      (dateGate (parseDimensions ["nashville"] 100 (fun _ => none) "nashville today")
        [("City", Value.vStr "Nashville")] &&
       timeGate (parseDimensions ["nashville"] 100 (fun _ => none) "nashville today")
        [("City", Value.vStr "Nashville")] &&
       (parseDimensions ["nashville"] 100 (fun _ => none) "nashville today").location_keywords.any
         (fun loc => isSubstrS loc (cityCountyText [("City", Value.vStr "Nashville")]))) :=
  C5_keyword_match_characterization ["nashville"] 100 (fun _ => none) (fun _ _ => 0)
    "nashville today" [("City", Value.vStr "Nashville")] (by decide)

/-- The empty pattern occurs in every string, as in Python. -/
theorem isSubstr_nil_left (s : List Char) : isSubstr [] s = true := by
  simp only [isSubstr, List.any_eq_true]
  exact ⟨0, by simp, by simp [List.isPrefixOf]⟩

/-- Only the empty pattern occurs in the empty string. -/
theorem isSubstr_empty_text {p : List Char} (h : isSubstr p [] = true) : p = [] := by
  cases p with
  | nil => rfl
  | cons a t => simp [isSubstr, List.isPrefixOf] at h

/-- String version of isSubstr_empty_text. -/
theorem isSubstrS_empty_text {p : String} (h : isSubstrS p "" = true) : p = "" := by
  cases p with
  | mk l =>
    have : l = [] := isSubstr_empty_text h
    rw [this]

/-- With an empty (post-strip) query every parsed dimension except
possibly keywords is inactive, every keyword that survives the filter
is itself the empty string, and therefore every record passes the loop
body. -/
theorem rowEval_empty_query (kl : List String) (today : ℤ)
    (provider : String → Option Coords) (gdist : Coords → Coords → ℚ) (row : Row) :
    (rowEval (parseDimensions kl today provider "") provider gdist (pyLower "") row).1 = true := by
  rw [rowEval_match_eq]
  have hdr : (parseDimensions kl today provider "").date_range = none := rfl
  have htr : (parseDimensions kl today provider "").time_range = none := rfl
  have hdp : (parseDimensions kl today provider "").distance_params = none := rfl
  have hkw : (parseDimensions kl today provider "").location_keywords =
      kl.filter (fun loc => isSubstrS loc (pyLower "")) := rfl
  have hdg : dateGate (parseDimensions kl today provider "") row = true := by
    unfold dateGate; rw [hdr]
  have htg : timeGate (parseDimensions kl today provider "") row = true := by
    unfold timeGate; rw [htr]
  have hdist : distGate (parseDimensions kl today provider "") provider gdist row = true := by
    unfold distGate; rw [hdp]
  rw [hdg, htg, hdist]
  rcases hk : (parseDimensions kl today provider "").location_keywords with _ | ⟨k, ks⟩
  · have hkg : kwGate (parseDimensions kl today provider "") row = true := by
      unfold kwGate; rw [hk]
    have hact : anyActive (parseDimensions kl today provider "") = false := by
      unfold anyActive; rw [hdr, htr, hdp, hk]; rfl
    have hfb : fallbackCheck (parseDimensions kl today provider "") (pyLower "") row = true := by
      unfold fallbackCheck
      rw [hact]
      simpa using isSubstr_nil_left (joinedRowText row).data
    rw [hkg, hfb]
    rfl
  · have hkmem : k ∈ kl.filter (fun loc => isSubstrS loc (pyLower "")) := by
      rw [← hkw, hk]; exact List.mem_cons_self k ks
    have hkempty : k = "" := by
      have := (List.mem_filter.mp hkmem).2
      exact isSubstrS_empty_text (by simpa using this)
    have hkg : kwGate (parseDimensions kl today provider "") row = true := by
      unfold kwGate
      rw [hk]
      simp only [List.any_cons, Bool.or_eq_true]
      left
      rw [hkempty]
      simpa [isSubstrS] using isSubstr_nil_left (cityCountyText row).data
    have hact : anyActive (parseDimensions kl today provider "") = true := by
      unfold anyActive; rw [hk]; simp
    have hfb : fallbackCheck (parseDimensions kl today provider "") (pyLower "") row = true := by
      unfold fallbackCheck; rw [hact]; rfl
    rw [hkg, hfb]
    rfl

/-- Claim C6: three-part policy for the fallback.  First, a request
whose stripped query is empty returns every record (formatted).
Second, when zero dimensions are active the endpoint returns exactly
the records whose joined lowercased values contain the lowercased
query.  Third, whenever any structured dimension (distance, date,
time) is recognized, the per-row verdict is the conjunction of the four
gates alone: the whole-query fallback check plays no part. -/
theorem C6_zero_active_dims_policy (data : List Row) (kl : List String) (today : ℤ)
    (provider : String → Option Coords) (gdist : Coords → Coords → ℚ) :
    (∀ raw, pyStrip raw = "" →
      query_foreclosure_sheet data kl today provider gdist raw = data.map formatRow) ∧
    (∀ raw, parseDimensions kl today provider (pyStrip raw) = ⟨none, none, none, []⟩ →
      query_foreclosure_sheet data kl today provider gdist raw =
        (data.filter (fun row =>
          isSubstrS (pyLower (pyStrip raw)) (joinedRowText row))).map formatRow) ∧
    (∀ q row, ((parseDimensions kl today provider q).distance_params.isSome = true ∨
        (parseDimensions kl today provider q).date_range.isSome = true ∨
        (parseDimensions kl today provider q).time_range.isSome = true) →
      (rowEval (parseDimensions kl today provider q) provider gdist (pyLower q) row).1 =
        (dateGate (parseDimensions kl today provider q) row &&
         timeGate (parseDimensions kl today provider q) row &&
         distGate (parseDimensions kl today provider q) provider gdist row &&
         kwGate (parseDimensions kl today provider q) row)) := by
  refine ⟨?_, ?_, ?_⟩
  · intro raw hraw
    simp only [query_foreclosure_sheet]
    rw [hraw]
    cases data with
    | nil => rfl
    | cons r rs =>
      simp only [List.isEmpty_cons, if_false, Bool.false_eq_true]
      rw [List.filter_eq_self.mpr]
      intro row hrow
      exact rowEval_empty_query kl today provider gdist row
  · intro raw hpd
    simp only [query_foreclosure_sheet]
    cases data with
    | nil => rfl
    | cons r rs =>
      simp only [List.isEmpty_cons, if_false, Bool.false_eq_true]
      rw [List.filter_congr]
      intro row hrow
      rw [rowEval_match_eq, hpd]
      rfl
  · intro q row hstruct
    rw [rowEval_match_eq]
    have hact : anyActive (parseDimensions kl today provider q) = true := by
      unfold anyActive
      rcases hstruct with h | h | h <;> rw [h] <;> simp
    have hfb : fallbackCheck (parseDimensions kl today provider q) (pyLower q) row = true := by
      unfold fallbackCheck
      rw [hact]
      rfl
    rw [hfb]
    simp [Bool.and_true]

/-- Witness for C6 at concrete inputs, one for each part. -/
theorem C6_zero_active_dims_policy_witness :
    (query_foreclosure_sheet [[("City", Value.vStr "Nashville")]] ["zz"] 100 (fun _ => none)
        (fun _ _ => 0) " " = [[("City", Value.vStr "Nashville")]].map formatRow) ∧
    (query_foreclosure_sheet [[("City", Value.vStr "Nashville")]] ["zz"] 100 (fun _ => none)
        (fun _ _ => 0) "main" = ([[("City", Value.vStr "Nashville")]].filter (fun row =>
          isSubstrS (pyLower (pyStrip "main")) (joinedRowText row))).map formatRow) ∧
    ((rowEval (parseDimensions ["zz"] 100 (fun _ => none) "today") (fun _ => none)
        (fun _ _ => 0) (pyLower "today") []).1 =
      (dateGate (parseDimensions ["zz"] 100 (fun _ => none) "today") [] &&
       timeGate (parseDimensions ["zz"] 100 (fun _ => none) "today") [] &&
       distGate (parseDimensions ["zz"] 100 (fun _ => none) "today") (fun _ => none)
         (fun _ _ => 0) [] &&
       kwGate (parseDimensions ["zz"] 100 (fun _ => none) "today") [])) :=
  ⟨(C6_zero_active_dims_policy [[("City", Value.vStr "Nashville")]] ["zz"] 100 (fun _ => none)
      (fun _ _ => 0)).1 " " (by decide),
   (C6_zero_active_dims_policy [[("City", Value.vStr "Nashville")]] ["zz"] 100 (fun _ => none)
      (fun _ _ => 0)).2.1 "main" (by decide),
   (C6_zero_active_dims_policy [[("City", Value.vStr "Nashville")]] ["zz"] 100 (fun _ => none)
      (fun _ _ => 0)).2.2 "today" [] (Or.inr (Or.inl (by decide)))⟩

/-- Claim C7 counterexample: the lru_cache sits outside the function,
so the cache key is the raw argument string while the trim-and-lower
normalization happens only just before the external call.  Two inputs
that are equal after normalization but differ raw therefore perform two
external calls (refuting the claimed at-most-one), even though both
return the same coordinates. -/
theorem C7_two_calls_for_normalized_equal_inputs :
    (let provider : String → Option Coords :=
        fun s => if s = "nashville" then some (36, -86) else none
     let r1 := get_coords provider ⟨[], 0⟩ "Nashville"
     let r2 := get_coords provider r1.2 " nashville "
     pyLower (pyStrip "Nashville") = pyLower (pyStrip " nashville ") ∧
     r1.1 = some (36, -86) ∧ r2.1 = some (36, -86) ∧
     r2.2.calls = 2 ∧ ¬ r2.2.calls ≤ 1) := by
  decide

/-- Claim C7 amended: get_coords normalizes (strip, lower) before the
external call but caches under the raw input string.  Hence, on any
cache state consistent with the provider, two inputs equal after
normalization return identical coordinates (each being the provider's
answer for the normalized text), and a repeated lookup with the
identical raw string is a cache hit: same result, unchanged state, no
additional external call.  Raw-distinct inputs, however, each perform
their own external call, as the counterexample shows. -/
theorem C7_normalize_before_call_cache_on_raw (provider : String → Option Coords)
    (st : GeoState) (s1 s2 : String) (hwf : GeoWF provider st)
    (hnorm : pyLower (pyStrip s1) = pyLower (pyStrip s2)) :
    (get_coords provider st s1).1 = (get_coords provider st s2).1 ∧
    (get_coords provider st s1).1 = provider (pyLower (pyStrip s1)) ∧
    get_coords provider (get_coords provider st s1).2 s1 = get_coords provider st s1 := by
  have h1 := get_coords_value provider st s1 hwf
  have h2 := get_coords_value provider st s2 hwf
  refine ⟨?_, h1.1, ?_⟩
  · rw [h1.1, h2.1]
    unfold get_coords_pure
    rw [hnorm]
  · unfold get_coords
    cases hl : st.cache.lookup s1 with
    | some r => simp [hl]
    | none => simp [hl, List.lookup]

/-- Witness for C7 amended at concrete inputs. -/
theorem C7_normalize_before_call_cache_on_raw_witness :
    ((get_coords (fun s => if s = "nashville" then some ((36 : ℚ), (-86 : ℚ)) else none)
        ⟨[], 0⟩ "Nashville").1 =
      (get_coords (fun s => if s = "nashville" then some ((36 : ℚ), (-86 : ℚ)) else none)
        ⟨[], 0⟩ " nashville ").1) ∧
    ((get_coords (fun s => if s = "nashville" then some ((36 : ℚ), (-86 : ℚ)) else none)
        ⟨[], 0⟩ "Nashville").1 =
      (fun s => if s = "nashville" then some ((36 : ℚ), (-86 : ℚ)) else none)
        (pyLower (pyStrip "Nashville"))) ∧
    (get_coords (fun s => if s = "nashville" then some ((36 : ℚ), (-86 : ℚ)) else none)
      (get_coords (fun s => if s = "nashville" then some ((36 : ℚ), (-86 : ℚ)) else none)
        ⟨[], 0⟩ "Nashville").2 "Nashville" =
      get_coords (fun s => if s = "nashville" then some ((36 : ℚ), (-86 : ℚ)) else none)
        ⟨[], 0⟩ "Nashville") :=
  C7_normalize_before_call_cache_on_raw
    (fun s => if s = "nashville" then some ((36 : ℚ), (-86 : ℚ)) else none)
    ⟨[], 0⟩ "Nashville" " nashville "
    (by intro p hp; exact absurd hp (List.not_mem_nil p)) (by decide)

/-- Claim C8: under an active date filter a record whose stored
SaleDate is missing, falsy, a non-string, or not parsable as
MM/DD/YYYY fails the date predicate, hence the whole row, and the
evaluation is a total function (the Python exception is caught and
becomes the none case of the parser); the same policy for SaleTime
under an active time filter.  The strptimeDateVal / strptimeTimeVal
none condition covers every such malformed case (a missing key
produces the falsy None value, whose parse is none). -/
theorem C8_unparsable_date_or_time_excluded (dr : ℤ × ℤ) (tr : ℕ × ℕ) (pd : ParsedDims)
    (provider : String → Option Coords) (gdist : Coords → Coords → ℚ)
    (ql : String) (row : Row) :
    (strptimeDateVal (rowGet row "SaleDate") = none → datePass dr row = false) ∧
    (strptimeTimeVal (rowGet row "SaleTime") = none → timePass tr row = false) ∧
    (pd.date_range = some dr → strptimeDateVal (rowGet row "SaleDate") = none →
      (rowEval pd provider gdist ql row).1 = false) ∧
    (pd.time_range = some tr → strptimeTimeVal (rowGet row "SaleTime") = none →
      (rowEval pd provider gdist ql row).1 = false) := by
  have hd : strptimeDateVal (rowGet row "SaleDate") = none → datePass dr row = false := by
    intro h
    simp [datePass, h]
  have ht : strptimeTimeVal (rowGet row "SaleTime") = none → timePass tr row = false := by
    intro h
    simp [timePass, h]
  refine ⟨hd, ht, ?_, ?_⟩
  · intro hp h
    rw [rowEval_match_eq]
    have : dateGate pd row = false := by
      unfold dateGate; rw [hp]; exact hd h
    simp [this]
  · intro hp h
    rw [rowEval_match_eq]
    have : timeGate pd row = false := by
      unfold timeGate; rw [hp]; exact ht h
    simp [this]

/-- Witness for C8 at a concrete record carrying an unparsable date
string and an integer sale time, under active date and time filters. -/
theorem C8_unparsable_date_or_time_excluded_witness :
    datePass (0, 10)
      [("SaleDate", Value.vStr "not a date"), ("SaleTime", Value.vInt 1200)] = false ∧
    timePass (420, 720)
      [("SaleDate", Value.vStr "not a date"), ("SaleTime", Value.vInt 1200)] = false ∧
    (rowEval ⟨none, some (0, 10), some (420, 720), []⟩ (fun _ => none) (fun _ _ => 0) ""
      [("SaleDate", Value.vStr "not a date"), ("SaleTime", Value.vInt 1200)]).1 = false :=
  ⟨(C8_unparsable_date_or_time_excluded (0, 10) (420, 720)
      ⟨none, some (0, 10), some (420, 720), []⟩ (fun _ => none) (fun _ _ => 0) ""
      [("SaleDate", Value.vStr "not a date"), ("SaleTime", Value.vInt 1200)]).1 (by decide),
   (C8_unparsable_date_or_time_excluded (0, 10) (420, 720)
      ⟨none, some (0, 10), some (420, 720), []⟩ (fun _ => none) (fun _ _ => 0) ""
      [("SaleDate", Value.vStr "not a date"), ("SaleTime", Value.vInt 1200)]).2.1 (by decide),
   (C8_unparsable_date_or_time_excluded (0, 10) (420, 720)
      ⟨none, some (0, 10), some (420, 720), []⟩ (fun _ => none) (fun _ _ => 0) ""
      [("SaleDate", Value.vStr "not a date"), ("SaleTime", Value.vInt 1200)]).2.2.1 rfl (by decide)⟩

/-- Claim C9 counterexample: the formatter uses str(row.get(field, ""))
and so the empty-string default applies only to a missing key; a field
present with the value None is coerced to the string None, not to the
empty string as the claim states. -/
theorem C9_present_none_becomes_the_string_None :
    (formatRow [("City", Value.vNone)]).City = "None" ∧ ("None" : String) ≠ "" := by
  decide

/-- Claim C9 amended: the formatter coerces every expected output field
with Python str applied to row.get(field, empty string): a missing key
yields the empty string, a key present with value None yields the
string None, any other value yields its str text; the function is
total (never raises) and, because every coerced field is a string, the
downstream pydantic validation never rejects a row. -/
theorem C9_formatter_str_of_get (row : Row) :
    formatRow row =
      { PropertyAddress := pyStr (rowGetD row "PropertyAddress" (.vStr ""))
      , SaleDate := pyStr (rowGetD row "SaleDate" (.vStr ""))
      , SaleTime := pyStr (rowGetD row "SaleTime" (.vStr ""))
      , City := pyStr (rowGetD row "City" (.vStr ""))
      , County := pyStr (rowGetD row "County" (.vStr ""))
      , ZipCode := pyStr (rowGetD row "ZipCode" (.vStr ""))
      , Source := pyStr (rowGetD row "Source" (.vStr "")) } ∧
    (∀ k, row.lookup k = none → pyStr (rowGetD row k (.vStr "")) = "") ∧
    pyStr Value.vNone = "None" := by
  refine ⟨rfl, ?_, rfl⟩
  intro k hk
  unfold rowGetD
  rw [hk]
  rfl

/-- Witness for C9 amended at a concrete record with one None field and
the other keys absent. -/
theorem C9_formatter_str_of_get_witness :
    formatRow [("City", Value.vNone)] =
      { PropertyAddress := pyStr (rowGetD [("City", Value.vNone)] "PropertyAddress" (.vStr ""))
      , SaleDate := pyStr (rowGetD [("City", Value.vNone)] "SaleDate" (.vStr ""))
      , SaleTime := pyStr (rowGetD [("City", Value.vNone)] "SaleTime" (.vStr ""))
      , City := pyStr (rowGetD [("City", Value.vNone)] "City" (.vStr ""))
      , County := pyStr (rowGetD [("City", Value.vNone)] "County" (.vStr ""))
      , ZipCode := pyStr (rowGetD [("City", Value.vNone)] "ZipCode" (.vStr ""))
      , Source := pyStr (rowGetD [("City", Value.vNone)] "Source" (.vStr "")) } ∧
    pyStr (rowGetD [("City", Value.vNone)] "ZipCode" (.vStr "")) = "" :=
  ⟨(C9_formatter_str_of_get [("City", Value.vNone)]).1,
   (C9_formatter_str_of_get [("City", Value.vNone)]).2.1 "ZipCode" (by decide)⟩

/-- Claim C10: every distance constraint the parser produces has
exactly one bound set, and the bound is chosen by the comparison
phrase: a lower-bound phrase (at least, more than, over, greater than,
compared case-insensitively via comp.lower()) sets min_dist and leaves
max_dist empty; any other or absent phrase sets max_dist and leaves
min_dist empty.  The value of the set bound is the unit-converted
magnitude. -/
theorem C10_exactly_one_bound (provider : String → Option Coords) (q : String)
    (c : DistParams) (h : parse_distance_query provider q = some c) :
    ((c.min_dist ≠ none ∧ c.max_dist = none) ∨ (c.min_dist = none ∧ c.max_dist ≠ none)) ∧
    (∀ m, distSearch q.data = some m →
      (isLowerComp m.comp = true → c.min_dist = some (convertDist m) ∧ c.max_dist = none) ∧
      (isLowerComp m.comp = false → c.min_dist = none ∧ c.max_dist = some (convertDist m))) := by
  unfold parse_distance_query at h
  cases hs : distSearch q.data with
  | none =>
    rw [hs] at h
    exact absurd h (by simp)
  | some m =>
    rw [hs] at h
    simp only at h
    cases hg : get_coords_pure provider m.loc with
    | none =>
      rw [hg] at h
      simp at h
    | some tc =>
      rw [hg] at h
      cases hlc : isLowerComp m.comp with
      | true =>
        rw [hlc] at h
        simp only [if_true, Option.some.injEq] at h
        subst h
        refine ⟨Or.inl ⟨by simp, rfl⟩, ?_⟩
        intro m2 hm2
        cases hm2
        exact ⟨fun _ => ⟨rfl, rfl⟩, fun hf => absurd hlc (by simp [hf])⟩
      | false =>
        rw [hlc] at h
        simp only [if_false, Bool.false_eq_true, Option.some.injEq] at h
        subst h
        refine ⟨Or.inr ⟨rfl, by simp⟩, ?_⟩
        intro m2 hm2
        cases hm2
        exact ⟨fun hf => absurd hlc (by simp [hf]), fun _ => ⟨rfl, rfl⟩⟩

/-- Witness for C10 at a concrete lower-bound query. -/
theorem C10_exactly_one_bound_witness :
    ((some (3 : ℚ) ≠ (none : Option ℚ) ∧ (none : Option ℚ) = none) ∨
      (some (3 : ℚ) = (none : Option ℚ) ∧ (none : Option ℚ) ≠ none)) ∧
    (∀ m, distSearch "at least 3 miles from nashville".data = some m →
      (isLowerComp m.comp = true →
        (DistParams.mk none (some 3) (36, -86)).min_dist = some (convertDist m) ∧
        (DistParams.mk none (some 3) (36, -86)).max_dist = none) ∧
      (isLowerComp m.comp = false →
        (DistParams.mk none (some 3) (36, -86)).min_dist = none ∧
        (DistParams.mk none (some 3) (36, -86)).max_dist = some (convertDist m))) := by
  have h := C10_exactly_one_bound
    (fun s => if s = "nashville" then some ((36 : ℚ), (-86 : ℚ)) else none)
    "at least 3 miles from nashville" (DistParams.mk none (some 3) (36, -86)) (by decide)
  exact ⟨Or.inl ⟨by simp, rfl⟩, h.2⟩
